import Mathlib

namespace LveSwapChainModel

/-- GPU object handles are opaque values; we model them as naturals, with `0`
standing for the null handle (`VK_NULL_HANDLE` / a default-constructed
`vk::` handle). -/
abbrev Handle := Nat

/-- Vulkan image formats (the variants this translation unit mentions). -/
inductive Format where
  | eB8G8R8A8Srgb
  | eB8G8R8A8Unorm
  | eR8G8B8A8Srgb
  | eD32Sfloat
  | eD32SfloatS8Uint
  | eD24UnormS8Uint
  deriving DecidableEq

/-- Vulkan color spaces. -/
inductive ColorSpaceKHR where
  | eSrgbNonlinear
  | eDisplayP3NonlinearEXT
  deriving DecidableEq

/-- A surface format entry: a pixel format paired with a color space. -/
structure SurfaceFormatKHR where
  format : Format
  colorSpace : ColorSpaceKHR
  deriving DecidableEq

/-- The preferred pair tested by the loop in `chooseSwapSurfaceFormat`
(`lve_swap_chain.cpp` lines 332-333). -/
def preferredSurfaceFormat (f : SurfaceFormatKHR) : Bool :=
  f.format = Format.eB8G8R8A8Srgb && f.colorSpace = ColorSpaceKHR.eSrgbNonlinear

/-- `LveSwapChain::chooseSwapSurfaceFormat` (lines 329-339): scan the available
formats for the 8-bit BGRA sRGB / sRGB-non-linear pair and return the first
match; otherwise return `availableFormats[0]`.  Indexing an empty vector is
undefined behaviour in the source, so the empty case here carries an arbitrary
default that no claim relies on. -/
def chooseSwapSurfaceFormat (availableFormats : List SurfaceFormatKHR) : SurfaceFormatKHR :=
  match availableFormats.find? preferredSurfaceFormat with
  | some f => f
  | none => availableFormats.getD 0 ⟨Format.eB8G8R8A8Srgb, ColorSpaceKHR.eSrgbNonlinear⟩

/-- `createSwapChain` lines 127-131: request `minImageCount + 1` images
(32-bit unsigned arithmetic), capped to `maxImageCount` whenever a maximum is
reported (`maxImageCount > 0`) and the request exceeds it. -/
def requestedImageCount (minImageCount maxImageCount : Nat) : Nat :=
  let imageCount := (minImageCount + 1) % 2 ^ 32
  if maxImageCount > 0 ∧ imageCount > maxImageCount then maxImageCount else imageCount

/-- Vulkan present modes (the variants this translation unit mentions). -/
inductive PresentModeKHR where
  | eMailbox
  | eFifo
  | eImmediate
  deriving DecidableEq

/-- `LveSwapChain::chooseSwapPresentMode` (lines 341-359): scan for mailbox
mode and return it when found; otherwise fall back to FIFO (the console
logging is side-effect only and carries no data). -/
def chooseSwapPresentMode (availablePresentModes : List PresentModeKHR) : PresentModeKHR :=
  match availablePresentModes.find? (fun m => m == PresentModeKHR.eMailbox) with
  | some m => m
  | none => PresentModeKHR.eFifo

/-- A 2D extent in pixels, with `uint32_t` components. -/
structure Extent2D where
  width : Nat
  height : Nat
  deriving DecidableEq

/-- The largest `uint32_t` value, the sentinel tested by `chooseSwapExtent`. -/
def UINT32_SENTINEL : Nat := 2 ^ 32 - 1

/-- Device-reported surface capabilities (the fields this translation unit
reads). -/
structure SurfaceCapabilitiesKHR where
  minImageCount : Nat
  maxImageCount : Nat
  currentExtent : Extent2D
  minImageExtent : Extent2D
  maxImageExtent : Extent2D
  currentTransform : Nat
  deriving DecidableEq

/-- `LveSwapChain::chooseSwapExtent` (lines 361-375): when the platform
reports the sentinel width, use the surface's current extent verbatim;
otherwise clamp the window extent per dimension to `[min, max]`. -/
def chooseSwapExtent (windowExtent : Extent2D) (capabilities : SurfaceCapabilitiesKHR) :
    Extent2D :=
  if capabilities.currentExtent.width ≠ UINT32_SENTINEL then
    capabilities.currentExtent
  else
    { width := max capabilities.minImageExtent.width
        (min capabilities.maxImageExtent.width windowExtent.width),
      height := max capabilities.minImageExtent.height
        (min capabilities.maxImageExtent.height windowExtent.height) }

/-- The swap-chain support bundle returned by `device.getSwapChainSupport()`. -/
structure SwapChainSupportDetails where
  capabilities : SurfaceCapabilitiesKHR
  formats : List SurfaceFormatKHR
  presentModes : List PresentModeKHR
  deriving DecidableEq

/-- Queue family indices returned by `device.findPhysicalQueueFamilies()`. -/
structure QueueFamilyIndices where
  graphicsFamily : Nat
  presentFamily : Nat
  deriving DecidableEq

/-- Image sharing modes. -/
inductive SharingMode where
  | eConcurrent
  | eExclusive
  deriving DecidableEq

/-- Image usage bits (only the colour-attachment bit is used here). -/
inductive ImageUsage where
  | eColorAttachment
  deriving DecidableEq

/-- Composite-alpha bits (only the opaque bit is used here). -/
inductive CompositeAlpha where
  | eOpaque
  deriving DecidableEq

/-- The swap-chain create info assembled by `createSwapChain`
(lines 133-161), with the pointer-and-count pairs rendered as lists. -/
structure SwapchainCreateInfoKHR where
  surface : Handle
  minImageCount : Nat
  imageFormat : Format
  imageColorSpace : ColorSpaceKHR
  imageExtent : Extent2D
  imageArrayLayers : Nat
  imageUsage : ImageUsage
  imageSharingMode : SharingMode
  queueFamilyIndexCount : Nat
  pQueueFamilyIndices : List Nat
  preTransform : Nat
  compositeAlpha : CompositeAlpha
  presentMode : PresentModeKHR
  clipped : Bool
  oldSwapchain : Handle
  deriving DecidableEq

/-- `LveSwapChain::createSwapChain` (lines 120-163), the pure part: the
create info handed to `createSwapchainKHR`, as a function of the support
details, the surface, the requested window extent, the queue family indices,
and the (optional) predecessor swap chain's handle (line 161: null when there
is no predecessor). -/
def mkSwapchainCreateInfo (support : SwapChainSupportDetails) (surface : Handle)
    (windowExtent : Extent2D) (indices : QueueFamilyIndices)
    (oldSwapChainHandle : Option Handle) : SwapchainCreateInfoKHR :=
  let surfaceFormat := chooseSwapSurfaceFormat support.formats
  let presentMode := chooseSwapPresentMode support.presentModes
  let extent := chooseSwapExtent windowExtent support.capabilities
  let imageCount := requestedImageCount support.capabilities.minImageCount
    support.capabilities.maxImageCount
  let distinctFamilies := indices.graphicsFamily ≠ indices.presentFamily
  { surface := surface,
    minImageCount := imageCount,
    imageFormat := surfaceFormat.format,
    imageColorSpace := surfaceFormat.colorSpace,
    imageExtent := extent,
    imageArrayLayers := 1,
    imageUsage := ImageUsage.eColorAttachment,
    imageSharingMode :=
      if distinctFamilies then SharingMode.eConcurrent else SharingMode.eExclusive,
    queueFamilyIndexCount := if distinctFamilies then 2 else 0,
    pQueueFamilyIndices :=
      if distinctFamilies then [indices.graphicsFamily, indices.presentFamily] else [],
    preTransform := support.capabilities.currentTransform,
    compositeAlpha := CompositeAlpha.eOpaque,
    presentMode := presentMode,
    clipped := true,
    oldSwapchain :=
      match oldSwapChainHandle with
      | none => 0
      | some h => h }

/-- The members of a freshly constructed `LveSwapChain` that the predecessor
claim is about. -/
structure CtorResult where
  createInfo : SwapchainCreateInfoKHR
  oldSwapChain : Option Handle
  deriving DecidableEq

/-- The recreation constructor (lines 19-24): store the predecessor in
`oldSwapChain`, run `init()` — whose `createSwapChain` step consumes the
predecessor's handle at line 161 — and then set `oldSwapChain = nullptr`. -/
def constructSwapChain (support : SwapChainSupportDetails) (surface : Handle)
    (windowExtent : Extent2D) (indices : QueueFamilyIndices)
    (previous : Option Handle) : CtorResult :=
  { createInfo := mkSwapchainCreateInfo support surface windowExtent indices previous,
    oldSwapChain := none }

/-- Modelled from the spec: `MAX_FRAMES_IN_FLIGHT` is declared in the header
`lve_swap_chain.hpp`, which is not among the sources.  The spec fixes it as a
constant ring size, "implementation picks ≥2, commonly 2". -/
def MAX_FRAMES_IN_FLIGHT : Nat := 2

/-- Vulkan result codes (the variants relevant to this translation unit). -/
inductive VkResult where
  | eSuccess
  | eSuboptimalKHR
  | eErrorOutOfDateKHR
  | eErrorDeviceLost
  deriving DecidableEq

/-- Pipeline stage bits used by the submit info. -/
inductive PipelineStage where
  | eColorAttachmentOutput
  | eEarlyFragmentTests
  deriving DecidableEq

namespace Frame

/-- The mutable members of `LveSwapChain` that the acquire/submit cycle reads
and writes.  `imagesInFlight` holds fence handles, `0` meaning
`VK_NULL_HANDLE` (no fence associated yet). -/
structure SyncState where
  currentFrame : Nat
  imagesInFlight : List Handle
  imageAvailableSemaphores : List Handle
  renderFinishedSemaphores : List Handle
  inFlightFences : List Handle
  swapChain : Handle
  deriving DecidableEq

/-- The `vk::SubmitInfo` built at lines 90-97, pointer-and-count pairs
rendered as lists. -/
structure SubmitInfo where
  waitSemaphoreCount : Nat
  pWaitSemaphores : List Handle
  pWaitDstStageMask : List PipelineStage
  commandBufferCount : Nat
  pCommandBuffers : List Handle
  signalSemaphoreCount : Nat
  pSignalSemaphores : List Handle
  deriving DecidableEq

/-- The `vk::PresentInfoKHR` built at lines 103-108. -/
structure PresentInfoKHR where
  waitSemaphoreCount : Nat
  pWaitSemaphores : List Handle
  swapchainCount : Nat
  pSwapchains : List Handle
  pImageIndices : List Nat
  deriving DecidableEq

/-- Everything a single `submitCommandBuffers` call hands to the platform,
plus the result it returns: whether (and on which fence) the per-image wait
at lines 82-84 blocked, the queue submission, the present request, and the
returned result code. -/
structure SubmitOutcome where
  waitedOnImageFence : Bool
  waitedFence : Handle
  submitInfo : SubmitInfo
  presentInfo : PresentInfoKHR
  returned : VkResult
  deriving DecidableEq

/-- `LveSwapChain::submitCommandBuffers` (lines 80-118).  `buffers` is the
array the `vk::CommandBuffer*` argument points to; `presentResult` is the
code the platform's `presentKHR` call reports (an environment input).
Line 82: wait on `imagesInFlight[*imageIndex]` when it is non-null.
Line 85: associate the current slot's fence with this image index.
Lines 90-100: build the submit info (command-buffer count fixed at 1), reset
the slot's fence, submit.  Lines 102-117: present, return a non-success
result immediately, otherwise advance `currentFrame` modulo
`MAX_FRAMES_IN_FLIGHT` and return success. -/
def submitCommandBuffers (s : SyncState) (buffers : List Handle) (imageIndex : Nat)
    (presentResult : VkResult) : SyncState × SubmitOutcome :=
  let priorFence := s.imagesInFlight.getD imageIndex 0
  let waited := priorFence != 0
  let slotFence := s.inFlightFences.getD s.currentFrame 0
  let submitInfo : SubmitInfo :=
    { waitSemaphoreCount := 1,
      pWaitSemaphores := [s.imageAvailableSemaphores.getD s.currentFrame 0],
      pWaitDstStageMask := [PipelineStage.eColorAttachmentOutput],
      commandBufferCount := 1,
      pCommandBuffers := buffers,
      signalSemaphoreCount := 1,
      pSignalSemaphores := [s.renderFinishedSemaphores.getD s.currentFrame 0] }
  let presentInfo : PresentInfoKHR :=
    { waitSemaphoreCount := 1,
      pWaitSemaphores := [s.renderFinishedSemaphores.getD s.currentFrame 0],
      swapchainCount := 1,
      pSwapchains := [s.swapChain],
      pImageIndices := [imageIndex] }
  let s1 : SyncState := { s with imagesInFlight := s.imagesInFlight.set imageIndex slotFence }
  let outcome : SubmitOutcome :=
    { waitedOnImageFence := waited,
      waitedFence := priorFence,
      submitInfo := submitInfo,
      presentInfo := presentInfo,
      returned := presentResult }
  if presentResult ≠ VkResult.eSuccess then
    (s1, outcome)
  else
    ({ s1 with currentFrame := (s1.currentFrame + 1) % MAX_FRAMES_IN_FLIGHT }, outcome)

/-- The `vk::ResultValue<uint32_t>` pair returned by `acquireNextImageKHR`
(an environment input: the platform chooses it). -/
structure ResultValue where
  result : VkResult
  value : Nat
  deriving DecidableEq

/-- What a single `acquireNextImage` call hands to the platform and returns:
the fence it waited on, the semaphore it passed to `acquireNextImageKHR`, and
the platform's answer. -/
structure AcquireOutcome where
  waitedFence : Handle
  usedSemaphore : Handle
  answer : ResultValue
  deriving DecidableEq

/-- `LveSwapChain::acquireNextImage` (lines 65-78): wait (unbounded) on the
current slot's in-flight fence, call `acquireNextImageKHR` with the current
slot's image-available semaphore, and return the platform's answer.  No
member of the object is written. -/
def acquireNextImage (s : SyncState) (platformAnswer : ResultValue) :
    SyncState × AcquireOutcome :=
  (s,
   { waitedFence := s.inFlightFences.getD s.currentFrame 0,
     usedSemaphore := s.imageAvailableSemaphores.getD s.currentFrame 0,
     answer := platformAnswer })

/-- A run of `submitCommandBuffers` calls: each step carries the command
buffers, the image index, and the present result the platform reports. -/
def runSubmits (s : SyncState) : List (List Handle × Nat × VkResult) → SyncState
  | [] => s
  | step :: rest => runSubmits (submitCommandBuffers s step.1 step.2.1 step.2.2).1 rest

/-- The image indices of a run of submit steps. -/
def SubmittedIndices (steps : List (List Handle × Nat × VkResult)) : List Nat :=
  steps.map (fun st => st.2.1)

/-- The sync-relevant state right after `createSyncObjects` (lines 312-327):
`currentFrame` starts at 0, and `imagesInFlight` is filled with
`VK_NULL_HANDLE` (line 316), one slot per swap-chain image.  The semaphore
and fence handle lists stand for whatever the device returned. -/
def initialSyncState (imageCount : Nat) (ia rf fences : List Handle) (sc : Handle) :
    SyncState :=
  { currentFrame := 0,
    imagesInFlight := List.replicate imageCount 0,
    imageAvailableSemaphores := ia,
    renderFinishedSemaphores := rf,
    inFlightFences := fences,
    swapChain := sc }

/-- The invariant the submit loop maintains: the fence list is untouched, the
frame index is in range, the per-image fence map keeps its length, and an
entry is non-null exactly when `P` holds of its index. -/
def SyncInv (n : Nat) (fences : List Handle) (P : Nat → Prop) (s : SyncState) : Prop :=
  s.inFlightFences = fences
  ∧ s.currentFrame < MAX_FRAMES_IN_FLIGHT
  ∧ s.imagesInFlight.length = n
  ∧ ∀ i, i < n → (s.imagesInFlight.getD i 0 ≠ 0 ↔ P i)

end Frame

namespace Sync

/-- Fence create flags (only the signaled bit is used here). -/
inductive FenceCreateFlag where
  | eSignaled
  deriving DecidableEq

/-- The `vk::FenceCreateInfo` built at lines 318-320. -/
structure FenceCreateInfo where
  flags : List FenceCreateFlag
  deriving DecidableEq

/-- A fence as the host sees it: an opaque handle plus its current
signaled state. -/
structure FenceObj where
  handle : Handle
  signaled : Bool
  deriving DecidableEq

/-- Modelled from the spec (platform contract; glossary: a fence is a
host-waitable GPU completion signal): `createFence` returns a fence whose
initial state is signaled exactly when the create info carries the signaled
flag.  The handle argument stands for the device-chosen handle value. -/
def createFence (info : FenceCreateInfo) (h : Handle) : FenceObj :=
  { handle := h, signaled := info.flags.contains FenceCreateFlag.eSignaled }

/-- The fence create info of `createSyncObjects` (lines 318-320): the
signaled flag is set. -/
def syncFenceCreateInfo : FenceCreateInfo :=
  { flags := [FenceCreateFlag.eSignaled] }

/-- The containers `createSyncObjects` fills. -/
structure SyncObjects where
  imageAvailableSemaphores : List Handle
  renderFinishedSemaphores : List Handle
  inFlightFences : List FenceObj
  imagesInFlight : List Handle
  deriving DecidableEq

/-- `LveSwapChain::createSyncObjects` (lines 312-327): resize the three
per-slot containers to `MAX_FRAMES_IN_FLIGHT`, fill `imagesInFlight` with
`VK_NULL_HANDLE` one slot per image, and create one semaphore pair and one
signaled fence per slot.  Concrete distinct numerals stand for the
device-returned handles. -/
def createSyncObjects (imageCount : Nat) : SyncObjects :=
  { imageAvailableSemaphores := (List.range MAX_FRAMES_IN_FLIGHT).map (fun i => 100 + i),
    renderFinishedSemaphores := (List.range MAX_FRAMES_IN_FLIGHT).map (fun i => 200 + i),
    inFlightFences :=
      (List.range MAX_FRAMES_IN_FLIGHT).map (fun i => createFence syncFenceCreateInfo (300 + i)),
    imagesInFlight := List.replicate imageCount 0 }

/-- Modelled from the spec: a host wait on a fence (the unbounded
`waitForFences` at the top of `acquireNextImage`, lines 66-69) returns
immediately exactly when the fence is already signaled. -/
def fenceWaitReturnsImmediately (f : FenceObj) : Bool := f.signaled

end Sync

namespace Resources

/-- A colour or depth image view: the image it was created over and the
view's format (from the `vk::ImageViewCreateInfo` at lines 178-187 and
298-306). -/
structure ImageViewObj where
  image : Handle
  format : Format
  deriving DecidableEq

/-- A framebuffer: the render pass it binds and its {colour view, depth view}
attachment pair, sized to the swap-chain extent (lines 254-264). -/
structure FramebufferObj where
  renderPass : Handle
  colorAttachment : ImageViewObj
  depthAttachment : ImageViewObj
  width : Nat
  height : Nat
  deriving DecidableEq

/-- The resource containers `init()` fills, in the order the members are
written. -/
structure ResourceState where
  swapChainImages : List Handle
  swapChainImageFormat : Format
  swapChainExtent : Extent2D
  swapChainImageViews : List ImageViewObj
  renderPass : Handle
  swapChainDepthFormat : Format
  depthImages : List Handle
  depthImageMemorys : List Handle
  depthImageViews : List ImageViewObj
  swapChainFramebuffers : List FramebufferObj
  imagesInFlight : List Handle
  deriving DecidableEq

/-- Modelled from the spec: the `imageCount()` accessor is declared in the
header `lve_swap_chain.hpp`, which is not among the sources.  Per the spec
the swap chain owns an ordered sequence of presentable images and exposes
their count, so the accessor returns the length of the image sequence. -/
def ResourceState.imageCount (s : ResourceState) : Nat :=
  s.swapChainImages.length

/-- `LveSwapChain::createImageViews` (lines 175-191): resize the view
container to the image count and create one 2D colour view per image. -/
def createImageViews (s : ResourceState) : ResourceState :=
  { s with
    swapChainImageViews :=
      (List.range s.swapChainImages.length).map
        (fun i => { image := s.swapChainImages.getD i 0, format := s.swapChainImageFormat }) }

/-- `LveSwapChain::createRenderPass` (lines 193-249), reduced to the member
write: store the render pass handle the device returned (a concrete non-null
numeral stands for it). -/
def createRenderPass (s : ResourceState) : ResourceState :=
  { s with renderPass := 500 }

/-- `LveSwapChain::createDepthResources` (lines 268-310): record the depth
format, resize the three depth containers to the image count, and create one
depth image, one memory allocation and one depth view per image (concrete
distinct numerals stand for the device-returned handles). -/
def createDepthResources (s : ResourceState) (depthFormat : Format) : ResourceState :=
  { s with
    swapChainDepthFormat := depthFormat,
    depthImages := (List.range s.imageCount).map (fun i => 3000 + i),
    depthImageMemorys := (List.range s.imageCount).map (fun i => 4000 + i),
    depthImageViews :=
      (List.range s.imageCount).map (fun i => { image := 3000 + i, format := depthFormat }) }

/-- `LveSwapChain::createFramebuffers` (lines 251-266): resize the
framebuffer container to the image count and bind the i-th colour view and
i-th depth view to the render pass, sized to the swap-chain extent. -/
def createFramebuffers (s : ResourceState) : ResourceState :=
  { s with
    swapChainFramebuffers :=
      (List.range s.imageCount).map
        (fun i =>
          { renderPass := s.renderPass,
            colorAttachment :=
              s.swapChainImageViews.getD i { image := 0, format := s.swapChainImageFormat },
            depthAttachment :=
              s.depthImageViews.getD i { image := 0, format := s.swapChainDepthFormat },
            width := s.swapChainExtent.width,
            height := s.swapChainExtent.height }) }

/-- The `imagesInFlight` initialisation of `createSyncObjects` (line 316):
one null fence handle per swap-chain image. -/
def createSyncObjectsFenceMap (s : ResourceState) : ResourceState :=
  { s with imagesInFlight := List.replicate s.imageCount 0 }

/-- The state right after `createSwapChain` has stored the images the device
returned: all later containers are still at their default (empty/null)
values. -/
def afterCreateSwapChain (images : List Handle) (fmt : Format) (ext : Extent2D) :
    ResourceState :=
  { swapChainImages := images,
    swapChainImageFormat := fmt,
    swapChainExtent := ext,
    swapChainImageViews := [],
    renderPass := 0,
    swapChainDepthFormat := fmt,
    depthImages := [],
    depthImageMemorys := [],
    depthImageViews := [],
    swapChainFramebuffers := [],
    imagesInFlight := [] }

/-- `LveSwapChain::init` (lines 26-33) from the point where the device
returned the swap-chain images: run the remaining creation steps in the
source's fixed order. -/
def initResources (images : List Handle) (fmt : Format) (ext : Extent2D)
    (depthFormat : Format) : ResourceState :=
  createSyncObjectsFenceMap
    (createFramebuffers
      (createDepthResources
        (createRenderPass
          (createImageViews (afterCreateSwapChain images fmt ext)))
        depthFormat))

end Resources

namespace Dtor

/-- The members the destructor (lines 35-63) reads, in a possibly
partially-constructed state: containers default to empty and scalar handles
to `0` (null). -/
structure DtorState where
  swapChainImageViews : List Handle
  swapChain : Handle
  depthImages : List Handle
  depthImageViews : List Handle
  depthImageMemorys : List Handle
  swapChainFramebuffers : List Handle
  renderPass : Handle
  imageAvailableSemaphores : List Handle
  renderFinishedSemaphores : List Handle
  inFlightFences : List Handle
  deriving DecidableEq

/-- One platform destroy call issued by the destructor, with the handle it
was given. -/
inductive DestroyEvent where
  | destroyImageView (h : Handle)
  | destroySwapchainKHR (h : Handle)
  | destroyImage (h : Handle)
  | freeMemory (h : Handle)
  | destroyFramebuffer (h : Handle)
  | destroyRenderPass (h : Handle)
  | destroySemaphore (h : Handle)
  | destroyFence (h : Handle)
  deriving DecidableEq

/-- `LveSwapChain::~LveSwapChain` (lines 35-63), as the sequence of destroy
calls it issues.  Lines 36-39: destroy every colour image view.  Lines 41-44:
destroy the swap-chain handle only when it is non-null (the one explicit
guard).  Lines 46-50: for each depth image index, destroy the view, the
image, and free the memory (the loop indexes the three parallel vectors by
`depthImages.size()`; `getD _ 0` renders the indexed reads).  Lines 52-54:
destroy every framebuffer.  Line 55: destroy the render pass,
unconditionally.  Lines 58-62: for each of the `MAX_FRAMES_IN_FLIGHT` slots,
destroy the render-finished semaphore, the image-available semaphore and the
in-flight fence — the loop bound is the constant, not the container sizes,
so these reads too are rendered with `getD _ 0`. -/
def destructorEvents (s : DtorState) : List DestroyEvent :=
  s.swapChainImageViews.map DestroyEvent.destroyImageView
  ++ (if s.swapChain ≠ 0 then [DestroyEvent.destroySwapchainKHR s.swapChain] else [])
  ++ (List.range s.depthImages.length).flatMap
      (fun i =>
        [DestroyEvent.destroyImageView (s.depthImageViews.getD i 0),
         DestroyEvent.destroyImage (s.depthImages.getD i 0),
         DestroyEvent.freeMemory (s.depthImageMemorys.getD i 0)])
  ++ s.swapChainFramebuffers.map DestroyEvent.destroyFramebuffer
  ++ [DestroyEvent.destroyRenderPass s.renderPass]
  ++ (List.range MAX_FRAMES_IN_FLIGHT).flatMap
      (fun i =>
        [DestroyEvent.destroySemaphore (s.renderFinishedSemaphores.getD i 0),
         DestroyEvent.destroySemaphore (s.imageAvailableSemaphores.getD i 0),
         DestroyEvent.destroyFence (s.inFlightFences.getD i 0)])

/-- What the destructor would emit under the claim's reading: the resource
categories released in strict reverse of the creation order of `init()`
(sync → framebuffers → depth → render pass → views → swap chain), with every
individual destroy call guarded so that a null handle is skipped.  This
definition follows the claim's words, to be compared with
`destructorEvents`, which is translated from the source. -/
def claimReverseDtorEvents (s : DtorState) : List DestroyEvent :=
  (List.range MAX_FRAMES_IN_FLIGHT).flatMap
      (fun i =>
        (if s.renderFinishedSemaphores.getD i 0 ≠ 0 then
          [DestroyEvent.destroySemaphore (s.renderFinishedSemaphores.getD i 0)] else [])
        ++ (if s.imageAvailableSemaphores.getD i 0 ≠ 0 then
          [DestroyEvent.destroySemaphore (s.imageAvailableSemaphores.getD i 0)] else [])
        ++ (if s.inFlightFences.getD i 0 ≠ 0 then
          [DestroyEvent.destroyFence (s.inFlightFences.getD i 0)] else []))
  ++ (s.swapChainFramebuffers.filter (fun h => h ≠ 0)).map DestroyEvent.destroyFramebuffer
  ++ (List.range s.depthImages.length).flatMap
      (fun i =>
        (if s.depthImageViews.getD i 0 ≠ 0 then
          [DestroyEvent.destroyImageView (s.depthImageViews.getD i 0)] else [])
        ++ (if s.depthImages.getD i 0 ≠ 0 then
          [DestroyEvent.destroyImage (s.depthImages.getD i 0)] else [])
        ++ (if s.depthImageMemorys.getD i 0 ≠ 0 then
          [DestroyEvent.freeMemory (s.depthImageMemorys.getD i 0)] else []))
  ++ (if s.renderPass ≠ 0 then [DestroyEvent.destroyRenderPass s.renderPass] else [])
  ++ (s.swapChainImageViews.filter (fun h => h ≠ 0)).map DestroyEvent.destroyImageView
  ++ (if s.swapChain ≠ 0 then [DestroyEvent.destroySwapchainKHR s.swapChain] else [])

/-- The destruction order §4.5 of the spec states and the source implements
(image views → swap chain → depth views/images/memory → framebuffers →
render pass → per-slot sync primitives), written independently of
`destructorEvents`: the parallel per-image and per-slot vectors are walked
as zipped triples rather than by index.  Only the swap-chain destroy is
null-guarded. -/
def sourceOrderDtorEvents (s : DtorState) : List DestroyEvent :=
  s.swapChainImageViews.map DestroyEvent.destroyImageView
  ++ (if s.swapChain ≠ 0 then [DestroyEvent.destroySwapchainKHR s.swapChain] else [])
  ++ (s.depthImageViews.zip (s.depthImages.zip s.depthImageMemorys)).flatMap
      (fun p =>
        [DestroyEvent.destroyImageView p.1,
         DestroyEvent.destroyImage p.2.1,
         DestroyEvent.freeMemory p.2.2])
  ++ s.swapChainFramebuffers.map DestroyEvent.destroyFramebuffer
  ++ [DestroyEvent.destroyRenderPass s.renderPass]
  ++ (s.renderFinishedSemaphores.zip (s.imageAvailableSemaphores.zip s.inFlightFences)).flatMap
      (fun p =>
        [DestroyEvent.destroySemaphore p.1,
         DestroyEvent.destroySemaphore p.2.1,
         DestroyEvent.destroyFence p.2.2])

/-- A fully constructed instance with one swap-chain image and distinct
non-null handles everywhere. -/
def fullState : DtorState :=
  { swapChainImageViews := [10],
    swapChain := 20,
    depthImages := [30],
    depthImageViews := [31],
    depthImageMemorys := [32],
    swapChainFramebuffers := [40],
    renderPass := 50,
    imageAvailableSemaphores := [60, 61],
    renderFinishedSemaphores := [62, 63],
    inFlightFences := [64, 65] }

/-- A partially constructed instance: only the swap chain and its image
views were created before initialization stopped; the render pass and
everything after it were never created, so their handles are still null and
their containers empty. -/
def partialState : DtorState :=
  { swapChainImageViews := [10],
    swapChain := 20,
    depthImages := [],
    depthImageViews := [],
    depthImageMemorys := [],
    swapChainFramebuffers := [],
    renderPass := 0,
    imageAvailableSemaphores := [],
    renderFinishedSemaphores := [],
    inFlightFences := [] }

end Dtor

end LveSwapChainModel

namespace LveSwapChainModel

/-- `getD` with the default `0` returns the stored value after `set` at an
in-bounds index. -/
theorem getD_set_self_of_lt (l : List Handle) (i : Nat) (v : Handle) (h : i < l.length) :
    (l.set i v).getD i 0 = v := by
  rw [List.getD_eq_getElem?_getD, List.getElem?_set_self h]
  rfl

/-- `getD` at an index other than the one `set` wrote is unchanged. -/
theorem getD_set_of_ne (l : List Handle) (i j : Nat) (v : Handle) (h : i ≠ j) :
    (l.set i v).getD j 0 = l.getD j 0 := by
  rw [List.getD_eq_getElem?_getD, List.getElem?_set_ne h, ← List.getD_eq_getElem?_getD]

/-- Reading a replicated-zero list always yields zero. -/
theorem getD_replicate_zero (n i : Nat) : (List.replicate n (0 : Handle)).getD i 0 = 0 := by
  rw [List.getD_eq_getElem?_getD, List.getElem?_replicate]
  split <;> rfl

/-- `getD` at an in-bounds index returns a member of the list. -/
theorem getD_mem_of_lt (l : List Handle) (i : Nat) (h : i < l.length) : l.getD i 0 ∈ l := by
  rw [List.getD_eq_getElem l 0 h]
  exact List.getElem_mem h

/-- An indexed walk over three parallel lists of equal length is the walk of
their zipped triples. -/
theorem range_flatMap_triple {α : Type} (f g h : Handle → α) :
    ∀ (n : Nat) (a b c : List Handle), a.length = n → b.length = n → c.length = n →
      (List.range n).flatMap
          (fun i => [f (a.getD i 0), g (b.getD i 0), h (c.getD i 0)])
        = (a.zip (b.zip c)).flatMap (fun p => [f p.1, g p.2.1, h p.2.2]) := by
  intro n
  induction n with
  | zero =>
    intro a b c ha hb hc
    rw [List.length_eq_zero] at ha hb hc
    subst ha; subst hb; subst hc
    rfl
  | succ n ih =>
    intro a b c ha hb hc
    match a, b, c with
    | x :: a, y :: b, z :: c =>
      simp only [List.length_cons, Nat.succ.injEq] at ha hb hc
      rw [List.range_succ_eq_map, List.zip_cons_cons, List.zip_cons_cons]
      rw [List.flatMap_cons, List.flatMap_cons, List.flatMap_map]
      simp only [List.getD_cons_zero, List.getD_cons_succ, Function.comp]
      rw [ih a b c ha hb hc]

namespace Frame

/-- The state component of a submit call, field by field: only
`imagesInFlight` (line 85) and — on success — `currentFrame` (line 115) are
written. -/
theorem submit_fst_fields (s : SyncState) (b : List Handle) (idx : Nat) (r : VkResult) :
    ((submitCommandBuffers s b idx r).1.imagesInFlight
        = s.imagesInFlight.set idx (s.inFlightFences.getD s.currentFrame 0))
    ∧ (submitCommandBuffers s b idx r).1.inFlightFences = s.inFlightFences
    ∧ (submitCommandBuffers s b idx r).1.imageAvailableSemaphores = s.imageAvailableSemaphores
    ∧ (submitCommandBuffers s b idx r).1.renderFinishedSemaphores = s.renderFinishedSemaphores
    ∧ (submitCommandBuffers s b idx r).1.swapChain = s.swapChain
    ∧ (submitCommandBuffers s b idx r).1.currentFrame
        = (if r = VkResult.eSuccess then (s.currentFrame + 1) % MAX_FRAMES_IN_FLIGHT
          else s.currentFrame) := by
  unfold submitCommandBuffers
  by_cases hr : r = VkResult.eSuccess <;> simp [hr]

/-- The outcome component of a submit call, in full. -/
theorem submit_snd_eq (s : SyncState) (b : List Handle) (idx : Nat) (r : VkResult) :
    (submitCommandBuffers s b idx r).2 =
      { waitedOnImageFence := s.imagesInFlight.getD idx 0 != 0,
        waitedFence := s.imagesInFlight.getD idx 0,
        submitInfo :=
          { waitSemaphoreCount := 1,
            pWaitSemaphores := [s.imageAvailableSemaphores.getD s.currentFrame 0],
            pWaitDstStageMask := [PipelineStage.eColorAttachmentOutput],
            commandBufferCount := 1,
            pCommandBuffers := b,
            signalSemaphoreCount := 1,
            pSignalSemaphores := [s.renderFinishedSemaphores.getD s.currentFrame 0] },
        presentInfo :=
          { waitSemaphoreCount := 1,
            pWaitSemaphores := [s.renderFinishedSemaphores.getD s.currentFrame 0],
            swapchainCount := 1,
            pSwapchains := [s.swapChain],
            pImageIndices := [idx] },
        returned := r } := by
  unfold submitCommandBuffers
  by_cases hr : r = VkResult.eSuccess <;> simp [hr]

/-- `SyncInv` respects pointwise equivalence of the tracking predicate. -/
theorem SyncInv_congr (n : Nat) (fences : List Handle) (P Q : Nat → Prop)
    (hPQ : ∀ i, P i ↔ Q i) (s : SyncState) (h : SyncInv n fences P s) :
    SyncInv n fences Q s := by
  obtain ⟨h1, h2, h3, h4⟩ := h
  exact ⟨h1, h2, h3, fun i hi => (h4 i hi).trans (hPQ i)⟩

/-- One submit call preserves the invariant and marks its image index. -/
theorem submit_preserves_inv (n : Nat) (fences : List Handle)
    (hlen : fences.length = MAX_FRAMES_IN_FLIGHT) (hnz : ∀ f ∈ fences, f ≠ 0)
    (P : Nat → Prop) (s : SyncState) (hs : SyncInv n fences P s)
    (b : List Handle) (idx : Nat) (hidx : idx < n) (r : VkResult) :
    SyncInv n fences (fun i => i = idx ∨ P i) (submitCommandBuffers s b idx r).1 := by
  obtain ⟨hf, hcf, hil, hiff⟩ := hs
  obtain ⟨h1, h2, _, _, _, h6⟩ := submit_fst_fields s b idx r
  refine ⟨h2.trans hf, ?_, ?_, ?_⟩
  · rw [h6]
    split
    · exact Nat.mod_lt _ (by decide)
    · exact hcf
  · rw [h1, List.length_set, hil]
  · intro i hi
    rw [h1]
    by_cases hieq : i = idx
    · subst hieq
      rw [getD_set_self_of_lt _ _ _ (by rw [hil]; exact hidx)]
      constructor
      · intro _
        exact Or.inl rfl
      · intro _
        have hmem : s.inFlightFences.getD s.currentFrame 0 ∈ fences := by
          rw [hf]
          exact getD_mem_of_lt _ _ (by rw [hlen]; exact hcf)
        exact hnz _ hmem
    · rw [getD_set_of_ne _ _ _ _ (fun he => hieq he.symm)]
      rw [hiff i hi]
      constructor
      · exact Or.inr
      · intro hor
        cases hor with
        | inl he => exact absurd he hieq
        | inr hp => exact hp

/-- A run of submit calls preserves the invariant, accumulating the image
indices submitted along the way. -/
theorem runSubmits_preserves_inv (n : Nat) (fences : List Handle)
    (hlen : fences.length = MAX_FRAMES_IN_FLIGHT) (hnz : ∀ f ∈ fences, f ≠ 0) :
    ∀ (steps : List (List Handle × Nat × VkResult)) (P : Nat → Prop) (s : SyncState),
      SyncInv n fences P s → (∀ st ∈ steps, st.2.1 < n) →
      SyncInv n fences (fun i => i ∈ SubmittedIndices steps ∨ P i) (runSubmits s steps) := by
  intro steps
  induction steps with
  | nil =>
    intro P s hs _
    refine SyncInv_congr n fences P _ (fun i => ?_) s hs
    simp [SubmittedIndices]
  | cons st rest ih =>
    intro P s hs hst
    have h1 := submit_preserves_inv n fences hlen hnz P s hs st.1 st.2.1
      (hst st (List.mem_cons_self st rest)) st.2.2
    have h2 := ih (fun i => i = st.2.1 ∨ P i) _ h1
      (fun x hx => hst x (List.mem_cons_of_mem st hx))
    refine SyncInv_congr n fences _ _ (fun i => ?_) _ h2
    simp only [SubmittedIndices, List.map_cons, List.mem_cons]
    tauto

/-- The state right after `createSyncObjects` satisfies the invariant with
nothing marked: every per-image fence entry is null (line 316). -/
theorem initialSyncState_inv (n : Nat) (ia rf fences : List Handle) (sc : Handle) :
    SyncInv n fences (fun _ => False) (initialSyncState n ia rf fences sc) := by
  refine ⟨rfl, ?_, ?_, ?_⟩
  · show (0 : Nat) < MAX_FRAMES_IN_FLIGHT
    decide
  · exact List.length_replicate n 0
  · intro i _
    simp [initialSyncState, getD_replicate_zero]

/-- C2: for every call to `submitCommandBuffers` with an image index within
the image count, reached by any run of prior submits from the freshly
initialised state, the host waits on the fence associated with that image
index if and only if some earlier submit used that image index (initially no
fence is associated, so the wait is skipped for a never-submitted index);
afterwards the current frame slot's in-flight fence is associated with that
image index. -/
theorem submit_waits_iff_prior_submit (n : Nat) (ia rf fences : List Handle)
    (sc : Handle) (hlen : fences.length = MAX_FRAMES_IN_FLIGHT)
    (hnz : ∀ f ∈ fences, f ≠ 0)
    (steps : List (List Handle × Nat × VkResult)) (hsteps : ∀ st ∈ steps, st.2.1 < n)
    (b : List Handle) (idx : Nat) (hidx : idx < n) (r : VkResult) :
    ((submitCommandBuffers (runSubmits (initialSyncState n ia rf fences sc) steps)
          b idx r).2.waitedOnImageFence = true
      ↔ idx ∈ SubmittedIndices steps)
    ∧ (submitCommandBuffers (runSubmits (initialSyncState n ia rf fences sc) steps)
          b idx r).1.imagesInFlight.getD idx 0
      = fences.getD
          (runSubmits (initialSyncState n ia rf fences sc) steps).currentFrame 0 := by
  have hinv := runSubmits_preserves_inv n fences hlen hnz steps (fun _ => False)
    (initialSyncState n ia rf fences sc) (initialSyncState_inv n ia rf fences sc) hsteps
  obtain ⟨hf, hcf, hil, hiff⟩ := hinv
  constructor
  · rw [submit_snd_eq]
    have h := hiff idx hidx
    simp only [or_false] at h
    simpa [bne_iff_ne] using h
  · obtain ⟨h1, _, _, _, _, _⟩ :=
      submit_fst_fields (runSubmits (initialSyncState n ia rf fences sc) steps) b idx r
    rw [h1, getD_set_self_of_lt _ _ _ (by rw [hil]; exact hidx), hf]

/-- Witness for C2 at a concrete 3-image, 2-slot configuration: image 0 was
submitted before, so the second submit at image 0 waits, and the slot fence
gets associated. -/
theorem submit_waits_iff_prior_submit_witness :
    (([300, 301] : List Handle).length = MAX_FRAMES_IN_FLIGHT)
    ∧ (∀ f ∈ ([300, 301] : List Handle), f ≠ 0)
    ∧ (∀ st ∈ ([([7], 0, VkResult.eSuccess), ([7], 1, VkResult.eSuccess)] :
        List (List Handle × Nat × VkResult)), st.2.1 < 3)
    ∧ (0 : Nat) < 3
    ∧ (((submitCommandBuffers
          (runSubmits (initialSyncState 3 [100, 101] [200, 201] [300, 301] 1)
            [([7], 0, VkResult.eSuccess), ([7], 1, VkResult.eSuccess)])
          [7] 0 VkResult.eSuccess).2.waitedOnImageFence = true
        ↔ 0 ∈ SubmittedIndices [([7], 0, VkResult.eSuccess), ([7], 1, VkResult.eSuccess)])
      ∧ (submitCommandBuffers
          (runSubmits (initialSyncState 3 [100, 101] [200, 201] [300, 301] 1)
            [([7], 0, VkResult.eSuccess), ([7], 1, VkResult.eSuccess)])
          [7] 0 VkResult.eSuccess).1.imagesInFlight.getD 0 0
        = ([300, 301] : List Handle).getD
            (runSubmits (initialSyncState 3 [100, 101] [200, 201] [300, 301] 1)
              [([7], 0, VkResult.eSuccess), ([7], 1, VkResult.eSuccess)]).currentFrame 0) :=
  ⟨by decide, by decide, by decide, by decide,
   submit_waits_iff_prior_submit 3 [100, 101] [200, 201] [300, 301] 1
     (by decide) (by decide) [([7], 0, VkResult.eSuccess), ([7], 1, VkResult.eSuccess)]
     (by decide) [7] 0 (by decide) VkResult.eSuccess⟩

/-- C3: every submit call returns the present result; on success the
current-frame index advances by exactly one modulo `MAX_FRAMES_IN_FLIGHT`,
on non-success it is left unchanged; in either case it stays in
`[0, MAX_FRAMES_IN_FLIGHT)`. -/
theorem submit_result_and_frame_advance (s : SyncState) (b : List Handle) (idx : Nat)
    (r : VkResult) (hcf : s.currentFrame < MAX_FRAMES_IN_FLIGHT) :
    (submitCommandBuffers s b idx r).2.returned = r
    ∧ (r = VkResult.eSuccess →
        (submitCommandBuffers s b idx r).1.currentFrame
          = (s.currentFrame + 1) % MAX_FRAMES_IN_FLIGHT)
    ∧ (r ≠ VkResult.eSuccess →
        (submitCommandBuffers s b idx r).1.currentFrame = s.currentFrame)
    ∧ (submitCommandBuffers s b idx r).1.currentFrame < MAX_FRAMES_IN_FLIGHT := by
  obtain ⟨_, _, _, _, _, h6⟩ := submit_fst_fields s b idx r
  refine ⟨?_, ?_, ?_, ?_⟩
  · rw [submit_snd_eq]
  · intro hr
    rw [h6, if_pos hr]
  · intro hr
    rw [h6, if_neg hr]
  · rw [h6]
    split
    · exact Nat.mod_lt _ (by decide)
    · exact hcf

/-- Witness for C3 at a concrete state: a successful present advances the
frame index from 0 to 1, a non-success result leaves it at 0, and both stay
in range. -/
theorem submit_result_and_frame_advance_witness :
    (initialSyncState 3 [100, 101] [200, 201] [300, 301] 1).currentFrame
        < MAX_FRAMES_IN_FLIGHT
    ∧ ((submitCommandBuffers (initialSyncState 3 [100, 101] [200, 201] [300, 301] 1)
          [7] 0 VkResult.eErrorOutOfDateKHR).2.returned = VkResult.eErrorOutOfDateKHR
      ∧ (VkResult.eErrorOutOfDateKHR = VkResult.eSuccess →
          (submitCommandBuffers (initialSyncState 3 [100, 101] [200, 201] [300, 301] 1)
            [7] 0 VkResult.eErrorOutOfDateKHR).1.currentFrame
            = ((initialSyncState 3 [100, 101] [200, 201] [300, 301] 1).currentFrame + 1)
                % MAX_FRAMES_IN_FLIGHT)
      ∧ (VkResult.eErrorOutOfDateKHR ≠ VkResult.eSuccess →
          (submitCommandBuffers (initialSyncState 3 [100, 101] [200, 201] [300, 301] 1)
            [7] 0 VkResult.eErrorOutOfDateKHR).1.currentFrame
            = (initialSyncState 3 [100, 101] [200, 201] [300, 301] 1).currentFrame)
      ∧ (submitCommandBuffers (initialSyncState 3 [100, 101] [200, 201] [300, 301] 1)
            [7] 0 VkResult.eErrorOutOfDateKHR).1.currentFrame < MAX_FRAMES_IN_FLIGHT) :=
  ⟨by decide,
   submit_result_and_frame_advance (initialSyncState 3 [100, 101] [200, 201] [300, 301] 1)
     [7] 0 VkResult.eErrorOutOfDateKHR (by decide)⟩

/-- C9: every submit call records a command-buffer count of exactly 1 in the
submit info, regardless of how many command buffers the `buffers` pointer
refers to (the pointed-to array is passed through unchanged). -/
theorem submit_commandBufferCount_one (s : SyncState) (b : List Handle) (idx : Nat)
    (r : VkResult) :
    (submitCommandBuffers s b idx r).2.submitInfo.commandBufferCount = 1
    ∧ (submitCommandBuffers s b idx r).2.submitInfo.pCommandBuffers = b := by
  rw [submit_snd_eq]
  exact ⟨rfl, rfl⟩

/-- C10: `acquireNextImage` returns the swap-chain object's state unchanged
— current frame, per-image fence map and every handle container — and the
fence-to-image-index association is made only by `submitCommandBuffers`,
which writes it through `imagesInFlight`. -/
theorem acquireNextImage_no_host_mutation (s : SyncState) (ans : ResultValue) :
    (acquireNextImage s ans).1 = s
    ∧ ∀ (b : List Handle) (idx : Nat) (r : VkResult),
        (submitCommandBuffers s b idx r).1.imagesInFlight
          = s.imagesInFlight.set idx (s.inFlightFences.getD s.currentFrame 0) := by
  refine ⟨rfl, ?_⟩
  intro b idx r
  exact (submit_fst_fields s b idx r).1

end Frame

/-- C4: `createSyncObjects` creates exactly `MAX_FRAMES_IN_FLIGHT`
image-available semaphores, `MAX_FRAMES_IN_FLIGHT` render-finished
semaphores and `MAX_FRAMES_IN_FLIGHT` in-flight fences, and every in-flight
fence is created in the signaled state, so the wait `acquireNextImage`
performs on any frame slot's fence before the slot's first submission
returns without blocking. -/
theorem createSyncObjects_counts_and_signaled (imageCount : Nat) :
    (Sync.createSyncObjects imageCount).imageAvailableSemaphores.length
        = MAX_FRAMES_IN_FLIGHT
    ∧ (Sync.createSyncObjects imageCount).renderFinishedSemaphores.length
        = MAX_FRAMES_IN_FLIGHT
    ∧ (Sync.createSyncObjects imageCount).inFlightFences.length = MAX_FRAMES_IN_FLIGHT
    ∧ (Sync.createSyncObjects imageCount).inFlightFences.all
        (fun f => Sync.fenceWaitReturnsImmediately f) = true := by
  refine ⟨?_, ?_, ?_, ?_⟩ <;>
    simp [Sync.createSyncObjects, Sync.createFence, Sync.syncFenceCreateInfo,
      Sync.fenceWaitReturnsImmediately, List.all_eq_true]

/-- C5: after initialization completes, the colour image-view sequence, the
depth image, memory and view sequences, the framebuffer sequence and the
per-image fence map all have length equal to the swap chain's image count,
for every image count at least 1. -/
theorem initResources_lengths (images : List Handle) (fmt : Format) (ext : Extent2D)
    (depthFormat : Format) (_hne : 1 ≤ images.length) :
    (Resources.initResources images fmt ext depthFormat).imageCount = images.length
    ∧ (Resources.initResources images fmt ext depthFormat).swapChainImageViews.length
        = images.length
    ∧ (Resources.initResources images fmt ext depthFormat).depthImages.length = images.length
    ∧ (Resources.initResources images fmt ext depthFormat).depthImageMemorys.length
        = images.length
    ∧ (Resources.initResources images fmt ext depthFormat).depthImageViews.length
        = images.length
    ∧ (Resources.initResources images fmt ext depthFormat).swapChainFramebuffers.length
        = images.length
    ∧ (Resources.initResources images fmt ext depthFormat).imagesInFlight.length
        = images.length := by
  refine ⟨?_, ?_, ?_, ?_, ?_, ?_, ?_⟩ <;>
    simp [Resources.initResources, Resources.createSyncObjectsFenceMap,
      Resources.createFramebuffers, Resources.createDepthResources,
      Resources.createRenderPass, Resources.createImageViews,
      Resources.afterCreateSwapChain, Resources.ResourceState.imageCount]

/-- Witness for C5 at a concrete 3-image configuration. -/
theorem initResources_lengths_witness :
    1 ≤ ([11, 12, 13] : List Handle).length
    ∧ ((Resources.initResources [11, 12, 13] Format.eB8G8R8A8Srgb ⟨800, 600⟩
          Format.eD32Sfloat).imageCount = ([11, 12, 13] : List Handle).length
      ∧ (Resources.initResources [11, 12, 13] Format.eB8G8R8A8Srgb ⟨800, 600⟩
          Format.eD32Sfloat).swapChainImageViews.length = ([11, 12, 13] : List Handle).length
      ∧ (Resources.initResources [11, 12, 13] Format.eB8G8R8A8Srgb ⟨800, 600⟩
          Format.eD32Sfloat).depthImages.length = ([11, 12, 13] : List Handle).length
      ∧ (Resources.initResources [11, 12, 13] Format.eB8G8R8A8Srgb ⟨800, 600⟩
          Format.eD32Sfloat).depthImageMemorys.length = ([11, 12, 13] : List Handle).length
      ∧ (Resources.initResources [11, 12, 13] Format.eB8G8R8A8Srgb ⟨800, 600⟩
          Format.eD32Sfloat).depthImageViews.length = ([11, 12, 13] : List Handle).length
      ∧ (Resources.initResources [11, 12, 13] Format.eB8G8R8A8Srgb ⟨800, 600⟩
          Format.eD32Sfloat).swapChainFramebuffers.length = ([11, 12, 13] : List Handle).length
      ∧ (Resources.initResources [11, 12, 13] Format.eB8G8R8A8Srgb ⟨800, 600⟩
          Format.eD32Sfloat).imagesInFlight.length = ([11, 12, 13] : List Handle).length) :=
  ⟨by decide,
   initResources_lengths [11, 12, 13] Format.eB8G8R8A8Srgb ⟨800, 600⟩ Format.eD32Sfloat
     (by decide)⟩

/-- C6: with a predecessor present, its handle enters the platform create
call only through the old-swapchain field (every other field of the create
info is independent of the predecessor), and construction ends with the
`oldSwapChain` member cleared, so the new instance holds no reference to the
predecessor. -/
theorem predecessor_hint_only_and_released (support : SwapChainSupportDetails)
    (surface : Handle) (windowExtent : Extent2D) (indices : QueueFamilyIndices)
    (prev : Handle) :
    (mkSwapchainCreateInfo support surface windowExtent indices (some prev)).oldSwapchain
        = prev
    ∧ ({ mkSwapchainCreateInfo support surface windowExtent indices (some prev) with
          oldSwapchain := 0 }
        = { mkSwapchainCreateInfo support surface windowExtent indices none with
          oldSwapchain := 0 })
    ∧ (constructSwapChain support surface windowExtent indices (some prev)).oldSwapChain
        = none :=
  ⟨rfl, rfl, rfl⟩

/-- C7: for every non-empty list of available surface formats, the selection
returns an entry of the list; it returns the preferred 8-bit BGRA sRGB /
sRGB-non-linear pair whenever one is present, and otherwise the first entry
of the list. -/
theorem chooseSwapSurfaceFormat_spec (l : List SurfaceFormatKHR) (hne : l ≠ []) :
    chooseSwapSurfaceFormat l ∈ l
    ∧ ((∃ f ∈ l, f.format = Format.eB8G8R8A8Srgb
          ∧ f.colorSpace = ColorSpaceKHR.eSrgbNonlinear) →
        (chooseSwapSurfaceFormat l).format = Format.eB8G8R8A8Srgb
          ∧ (chooseSwapSurfaceFormat l).colorSpace = ColorSpaceKHR.eSrgbNonlinear)
    ∧ ((¬ ∃ f ∈ l, f.format = Format.eB8G8R8A8Srgb
          ∧ f.colorSpace = ColorSpaceKHR.eSrgbNonlinear) →
        chooseSwapSurfaceFormat l
          = l.headD ⟨Format.eB8G8R8A8Srgb, ColorSpaceKHR.eSrgbNonlinear⟩) := by
  cases hf : l.find? preferredSurfaceFormat with
  | some f =>
    have hmem := List.mem_of_find?_eq_some hf
    have hpred : f.format = Format.eB8G8R8A8Srgb
        ∧ f.colorSpace = ColorSpaceKHR.eSrgbNonlinear := by
      simpa [preferredSurfaceFormat] using List.find?_some hf
    refine ⟨?_, ?_, ?_⟩
    · simpa [chooseSwapSurfaceFormat, hf] using hmem
    · intro _
      simp [chooseSwapSurfaceFormat, hf, hpred.1, hpred.2]
    · intro hno
      exact absurd ⟨f, hmem, hpred⟩ hno
  | none =>
    have hall := List.find?_eq_none.mp hf
    match l, hne with
    | x :: l, _ =>
      refine ⟨?_, ?_, ?_⟩
      · simp [chooseSwapSurfaceFormat, hf]
      · intro hex
        obtain ⟨f, hfm, hf1, hf2⟩ := hex
        have := hall f hfm
        simp [preferredSurfaceFormat, hf1, hf2] at this
      · intro _
        simp [chooseSwapSurfaceFormat, hf]

/-- Witness for C7: a two-entry list whose second entry is the preferred
pair. -/
theorem chooseSwapSurfaceFormat_spec_witness :
    (([⟨Format.eB8G8R8A8Unorm, ColorSpaceKHR.eSrgbNonlinear⟩,
        ⟨Format.eB8G8R8A8Srgb, ColorSpaceKHR.eSrgbNonlinear⟩] : List SurfaceFormatKHR) ≠ [])
    ∧ (chooseSwapSurfaceFormat
          [⟨Format.eB8G8R8A8Unorm, ColorSpaceKHR.eSrgbNonlinear⟩,
           ⟨Format.eB8G8R8A8Srgb, ColorSpaceKHR.eSrgbNonlinear⟩]
        ∈ ([⟨Format.eB8G8R8A8Unorm, ColorSpaceKHR.eSrgbNonlinear⟩,
            ⟨Format.eB8G8R8A8Srgb, ColorSpaceKHR.eSrgbNonlinear⟩] : List SurfaceFormatKHR)
      ∧ ((∃ f ∈ ([⟨Format.eB8G8R8A8Unorm, ColorSpaceKHR.eSrgbNonlinear⟩,
            ⟨Format.eB8G8R8A8Srgb, ColorSpaceKHR.eSrgbNonlinear⟩] : List SurfaceFormatKHR),
            f.format = Format.eB8G8R8A8Srgb ∧ f.colorSpace = ColorSpaceKHR.eSrgbNonlinear) →
          (chooseSwapSurfaceFormat
            [⟨Format.eB8G8R8A8Unorm, ColorSpaceKHR.eSrgbNonlinear⟩,
             ⟨Format.eB8G8R8A8Srgb, ColorSpaceKHR.eSrgbNonlinear⟩]).format
              = Format.eB8G8R8A8Srgb
            ∧ (chooseSwapSurfaceFormat
                [⟨Format.eB8G8R8A8Unorm, ColorSpaceKHR.eSrgbNonlinear⟩,
                 ⟨Format.eB8G8R8A8Srgb, ColorSpaceKHR.eSrgbNonlinear⟩]).colorSpace
              = ColorSpaceKHR.eSrgbNonlinear)
      ∧ ((¬ ∃ f ∈ ([⟨Format.eB8G8R8A8Unorm, ColorSpaceKHR.eSrgbNonlinear⟩,
            ⟨Format.eB8G8R8A8Srgb, ColorSpaceKHR.eSrgbNonlinear⟩] : List SurfaceFormatKHR),
            f.format = Format.eB8G8R8A8Srgb ∧ f.colorSpace = ColorSpaceKHR.eSrgbNonlinear) →
          chooseSwapSurfaceFormat
            [⟨Format.eB8G8R8A8Unorm, ColorSpaceKHR.eSrgbNonlinear⟩,
             ⟨Format.eB8G8R8A8Srgb, ColorSpaceKHR.eSrgbNonlinear⟩]
            = ([⟨Format.eB8G8R8A8Unorm, ColorSpaceKHR.eSrgbNonlinear⟩,
                ⟨Format.eB8G8R8A8Srgb, ColorSpaceKHR.eSrgbNonlinear⟩] :
                List SurfaceFormatKHR).headD
               ⟨Format.eB8G8R8A8Srgb, ColorSpaceKHR.eSrgbNonlinear⟩)) :=
  ⟨by decide,
   chooseSwapSurfaceFormat_spec
     [⟨Format.eB8G8R8A8Unorm, ColorSpaceKHR.eSrgbNonlinear⟩,
      ⟨Format.eB8G8R8A8Srgb, ColorSpaceKHR.eSrgbNonlinear⟩] (by decide)⟩

/-- C8: `createSwapChain` requests the device-reported minimum image count
plus one, reduced to the device-reported maximum whenever a maximum is
reported (maximum greater than 0) and the request exceeds it; when the
reported maximum is 0 no cap is applied.  The hypothesis excludes 32-bit
wrap-around of `minImageCount + 1`, which cannot occur for a `uint32_t`
device report below the type's maximum. -/
theorem requestedImageCount_spec (minIC maxIC : Nat) (hof : minIC + 1 < 2 ^ 32) :
    (maxIC = 0 → requestedImageCount minIC maxIC = minIC + 1)
    ∧ (0 < maxIC → maxIC < minIC + 1 → requestedImageCount minIC maxIC = maxIC)
    ∧ (0 < maxIC → minIC + 1 ≤ maxIC → requestedImageCount minIC maxIC = minIC + 1) := by
  unfold requestedImageCount
  simp only [Nat.mod_eq_of_lt hof]
  refine ⟨?_, ?_, ?_⟩
  · intro h0
    simp [h0]
  · intro h1 h2
    rw [if_pos ⟨h1, h2⟩]
  · intro h1 h2
    rw [if_neg (by omega)]

/-- Witness for C8: minimum 2 with maximum 3 caps the request at 3; minimum
2 with no reported maximum (0) requests 3. -/
theorem requestedImageCount_spec_witness :
    2 + 1 < 2 ^ 32
    ∧ ((3 = 0 → requestedImageCount 2 3 = 2 + 1)
      ∧ (0 < 3 → 3 < 2 + 1 → requestedImageCount 2 3 = 3)
      ∧ (0 < 3 → 2 + 1 ≤ 3 → requestedImageCount 2 3 = 2 + 1)) :=
  ⟨by decide, requestedImageCount_spec 2 3 (by decide)⟩

/-- C1, counterexample: the destructor does not release the resource
categories in strict reverse of the creation order, and not every destroy
call is guarded.  At a fully constructed instance the source's destroy
sequence differs from the strict-reverse-guarded sequence the claim
describes (the source destroys image views first and sync objects last,
while strict reverse requires sync objects first); and at a partially
constructed instance whose render pass was never created, the source still
issues `destroyRenderPass` on the null handle, which the claim says would be
skipped. -/
theorem destructor_claim_counterexample :
    Dtor.destructorEvents Dtor.fullState ≠ Dtor.claimReverseDtorEvents Dtor.fullState
    ∧ Dtor.DestroyEvent.destroyRenderPass 0 ∈ Dtor.destructorEvents Dtor.partialState
    ∧ Dtor.DestroyEvent.destroyRenderPass 0 ∉ Dtor.claimReverseDtorEvents Dtor.partialState := by
  decide

/-- C1, amended: the destructor releases the resource categories in the
fixed order image views → swap chain → depth views/images/memory →
framebuffers → render pass → per-frame-slot sync primitives (not the strict
reverse of the creation order); only the swap-chain handle destroy is
null-guarded, the container-backed destroys are skipped exactly when their
containers are empty, and the render pass destroy is issued unconditionally,
null or not.  The length hypotheses state that the parallel containers were
filled together, as every completed `init()` leaves them. -/
theorem destructor_order_and_guards (s : Dtor.DtorState)
    (hdv : s.depthImageViews.length = s.depthImages.length)
    (hdm : s.depthImageMemorys.length = s.depthImages.length)
    (hrf : s.renderFinishedSemaphores.length = MAX_FRAMES_IN_FLIGHT)
    (hia : s.imageAvailableSemaphores.length = MAX_FRAMES_IN_FLIGHT)
    (hif : s.inFlightFences.length = MAX_FRAMES_IN_FLIGHT) :
    Dtor.destructorEvents s = Dtor.sourceOrderDtorEvents s
    ∧ ((Dtor.DestroyEvent.destroySwapchainKHR s.swapChain ∈ Dtor.destructorEvents s)
        ↔ s.swapChain ≠ 0)
    ∧ Dtor.DestroyEvent.destroyRenderPass s.renderPass ∈ Dtor.destructorEvents s := by
  refine ⟨?_, ?_, ?_⟩
  · unfold Dtor.destructorEvents Dtor.sourceOrderDtorEvents
    rw [range_flatMap_triple Dtor.DestroyEvent.destroyImageView Dtor.DestroyEvent.destroyImage
        Dtor.DestroyEvent.freeMemory s.depthImages.length s.depthImageViews s.depthImages
        s.depthImageMemorys hdv rfl hdm,
      range_flatMap_triple Dtor.DestroyEvent.destroySemaphore Dtor.DestroyEvent.destroySemaphore
        Dtor.DestroyEvent.destroyFence MAX_FRAMES_IN_FLIGHT s.renderFinishedSemaphores
        s.imageAvailableSemaphores s.inFlightFences hrf hia hif]
  · constructor
    · intro hmem
      by_cases h0 : s.swapChain = 0
      · rw [h0] at hmem
        simp [Dtor.destructorEvents, h0] at hmem
      · exact h0
    · intro hnz
      simp [Dtor.destructorEvents, hnz]
  · simp [Dtor.destructorEvents]

/-- Witness for the amended C1 at the fully constructed instance. -/
theorem destructor_order_and_guards_witness :
    Dtor.fullState.depthImageViews.length = Dtor.fullState.depthImages.length
    ∧ Dtor.fullState.depthImageMemorys.length = Dtor.fullState.depthImages.length
    ∧ Dtor.fullState.renderFinishedSemaphores.length = MAX_FRAMES_IN_FLIGHT
    ∧ Dtor.fullState.imageAvailableSemaphores.length = MAX_FRAMES_IN_FLIGHT
    ∧ Dtor.fullState.inFlightFences.length = MAX_FRAMES_IN_FLIGHT
    ∧ (Dtor.destructorEvents Dtor.fullState = Dtor.sourceOrderDtorEvents Dtor.fullState
      ∧ ((Dtor.DestroyEvent.destroySwapchainKHR Dtor.fullState.swapChain
            ∈ Dtor.destructorEvents Dtor.fullState)
          ↔ Dtor.fullState.swapChain ≠ 0)
      ∧ Dtor.DestroyEvent.destroyRenderPass Dtor.fullState.renderPass
          ∈ Dtor.destructorEvents Dtor.fullState) :=
  ⟨by decide, by decide, by decide, by decide, by decide,
   destructor_order_and_guards Dtor.fullState (by decide) (by decide) (by decide)
     (by decide) (by decide)⟩

end LveSwapChainModel
